import Mathlib

/-!
Verification development for the Spritify Blender add-on (src/spritify.py).

The shallow embedding below translates the frame-path resolution and
composition-planning logic of the source into Lean:

* Python `PurePath` inputs are modelled as a pair of a file-name stem and
  a file extension (`PPath`); parent directories are not modelled, since no
  claim concerns them.  `PurePath.with_suffix` applied to a constructed
  name is modelled faithfully (`pyNameSuffixStart`, `pyWithSuffixStr`,
  `buildTemplateParts`): the name is re-parsed at its last dot, provided
  that dot is neither the first nor the last character, and the text from
  there on is replaced, so a dotted stem truncates the constructed
  template.
* Python floats are modelled exactly over `ℚ`; `str()` applied to a float
  is modelled by `pyFloatStr`, which prints the exact short decimal form of
  the rational (this agrees with CPython shortest round-trip printing on
  every value arising in this development).
* Frame numbers are natural numbers (Blender frames are nonnegative).
* The only exception the modelled code can raise is the `ValueError` that
  CPython `range` raises for a zero step; it is carried in `Except PyErr`.
  `subprocess.call` is modelled by recording the argument vector of each
  external invocation (`MontageCall` / `ConvertCall`); the Windows-only
  registry branch of the source is not modelled (non-Windows host assumed).
-/

set_option maxRecDepth 4000

namespace Spritify

/-- Python exceptions the modelled code can raise. -/
inductive PyErr where
  | valueError : PyErr
deriving DecidableEq

/-- A `pathlib.PurePath` restricted to what the source uses: the file-name
stem and the suffix (extension, with its leading dot, or empty). -/
structure PPath where
  stem : String
  ext : String
deriving DecidableEq

/-- Value of the `is_rows` enum property: tiles counted by rows or columns. -/
inductive Orientation where
  | ROWS : Orientation
  | COLUMNS : Orientation
deriving DecidableEq

/-- Value of `scene.render.views_format`. -/
inductive ViewsFormat where
  | STEREO_3D : ViewsFormat
  | MULTIVIEW : ViewsFormat
deriving DecidableEq

/-- One entry of `scene.render.views`. -/
structure RenderView where
  file_suffix : String
deriving DecidableEq

/-- The RGBA background color property (`bg_color`); component 0 is red,
1 green, 2 blue, 3 alpha, each a float in `[0, 1]` modelled in `ℚ`. -/
structure RGBA where
  r : ℚ
  g : ℚ
  b : ℚ
  a : ℚ
deriving DecidableEq

/-- The fields of `scene.render` read by the source.  Resolutions and the
percentage are integers in Blender; they are carried in `ℚ` because the
source immediately uses them in float arithmetic. -/
structure RenderSettings where
  filepath : PPath
  file_extension : String
  resolution_x : ℚ
  resolution_y : ℚ
  resolution_percentage : ℚ
  use_crop_to_border : Bool
  border_min_x : ℚ
  border_max_x : ℚ
  border_min_y : ℚ
  border_max_y : ℚ
  use_multiview : Bool
  views_format : ViewsFormat
  views : List RenderView
  fps : Nat
deriving DecidableEq

/-- The `SpriteSheetProperties` property group of the source. -/
structure SpriteSheetSettings where
  filepath : PPath
  imagemagick_path : String
  quality : Nat
  is_rows : Orientation
  tiles : Int
  offset_x : Int
  offset_y : Int
  bg_color : RGBA
  auto_sprite : Bool
  auto_gif : Bool
deriving DecidableEq

/-- The scene fields the source reads. -/
structure Scene where
  frame_start : Nat
  frame_end : Nat
  frame_step : Nat
  render : RenderSettings
  spritesheet : SpriteSheetSettings
deriving DecidableEq

/-- Zero padding of a natural number to a minimal width, as the Python
format specification `0Wd` does for nonnegative integers. -/
def padZeros (w : Nat) (n : Nat) : String :=
  String.mk (List.replicate (w - (toString n).length) '0') ++ toString n

/-- Least number of decimal digits after the point needed to write `q`
exactly, if at most 17 digits suffice. -/
def ratDecDigits (q : ℚ) : Option Nat :=
  (List.range 18).find? (fun k => (q * (10 : ℚ) ^ k).den == 1)

/-- CPython `str()` on a float, modelled on exact rationals: an integral
value prints with a trailing `.0`; otherwise the shortest exact decimal
expansion is printed.  This coincides with CPython shortest round-trip
float printing on every value this development evaluates. -/
def pyFloatStr (q : ℚ) : String :=
  let sign := if q < 0 then "-" else ""
  let aq := |q|
  if aq.den = 1 then sign ++ toString aq.num ++ ".0"
  else
    match ratDecDigits aq with
    | some k =>
        let m := (aq * (10 : ℚ) ^ k).num.toNat
        sign ++ toString (m / 10 ^ k) ++ "." ++ padZeros k (m % 10 ^ k)
    | none => sign ++ toString aq.num ++ "/" ++ toString aq.den

/-- Greedy consumption of a leading run of `#` characters: the run length
and the remainder.  Models the regex atom `#+` at the current position. -/
def takeHashRun : List Char → Nat × List Char
  | [] => (0, [])
  | c :: cs =>
      if c = '#' then ((takeHashRun cs).1 + 1, (takeHashRun cs).2)
      else (0, c :: cs)

/-- Backtracking engine for the source regex applied to a stem: a lazy
nonempty literal group, then a greedy `#` run, then a `#`-free tail
anchored at the end.  `pre` is the literal prefix accumulated so far; the
lazy group extends one character at a time until the run it finds leaves a
`#`-free remainder. -/
def hashMatchGo : List Char → List Char → Option (List Char × Nat × List Char)
  | _, [] => none
  | pre, c :: cs =>
      if c = '#' then
        if '#' ∈ (takeHashRun cs).2 then hashMatchGo (pre ++ [c]) cs
        else some (pre, (takeHashRun cs).1 + 1, (takeHashRun cs).2)
      else hashMatchGo (pre ++ [c]) cs

/-- `re.match` of the source pattern (line 114) against a stem: a nonempty
lazy prefix group, a `#` run group, and a trailing `#`-free group. -/
def hashMatch : List Char → Option (List Char × Nat × List Char)
  | [] => none
  | c :: cs => hashMatchGo [c] cs

/-- One piece of the resolved filename-template string: literal text, the
index slot (zero padded to the stored width), or the view-suffix slot. -/
inductive TPart where
  | lit : String → TPart
  | indexSlot : Nat → TPart
  | suffixSlot : TPart
deriving DecidableEq

/-- The literal text of the index slot in the format string built on line
117: an opening brace, `index:0`, the decimal width, `d`, a closing
brace. -/
def indexSlotText (w : Nat) : String := "\x7bindex:0" ++ toString w ++ "d\x7d"

/-- The literal text of the suffix slot in the format string. -/
def suffixSlotText : String := "\x7bsuffix\x7d"

/-- Index of the last occurrence of `c` in `l`, as Python `str.rfind`. -/
def lastIdxOf (c : Char) : List Char → Option Nat
  | [] => none
  | a :: as =>
      match lastIdxOf c as with
      | some i => some (i + 1)
      | none => if a = c then some 0 else none

/-- CPython `PurePath` suffix rule on a file name: the suffix starts at the
last dot, provided that dot is neither the first nor the last character of
the name; otherwise the name has no suffix. -/
def pyNameSuffixStart (name : List Char) : Option Nat :=
  match lastIdxOf '.' name with
  | some i => if 0 < i ∧ i + 1 < name.length then some i else none
  | none => none

/-- CPython `PurePath.with_suffix` acting on a file name: strip the current
suffix, if any, and append the new one.  Suffix-argument validation is not
modelled because every suffix the source passes (a parsed path suffix, a
Blender file extension, or `.gif`) is empty or dot-prefixed. -/
def pyWithSuffixStr (name suffix : String) : String :=
  match pyNameSuffixStart name.data with
  | some i => String.mk (name.data.take i) ++ suffix
  | none => name ++ suffix

/-- The name of `filepath_template` after line 122: the source builds the
format-string name `lead ++ indexSlotText w ++ suffixSlotText ++ trail`
with `with_name` and then applies `with_suffix(file_suffix)`, which
re-parses that very name at its last dot (`pyNameSuffixStart`).  The two
slot texts contain no dot, so the dot found, if any, lies in `lead` or in
`trail`: a dot in `trail` truncates the trailing text at that dot, while a
dot in `lead` cuts the name inside `lead` and destroys both slots, leaving
a constant name. -/
def buildTemplateParts (lead trail file_suffix : String) (w : Nat) : List TPart :=
  let nameStr := lead ++ indexSlotText w ++ suffixSlotText ++ trail
  match pyNameSuffixStart nameStr.data with
  | none => [TPart.lit lead, TPart.indexSlot w, TPart.suffixSlot,
             TPart.lit (trail ++ file_suffix)]
  | some i =>
      if i < lead.length then
        [TPart.lit (String.mk (lead.data.take i) ++ file_suffix)]
      else
        [TPart.lit lead, TPart.indexSlot w, TPart.suffixSlot,
         TPart.lit (String.mk (trail.data.take
             (i - (lead.length + (indexSlotText w).length + suffixSlotText.length)))
           ++ file_suffix)]

/-- The parsed form of the name of `filepath_template`. -/
structure PathTemplate where
  parts : List TPart
deriving DecidableEq

/-- `build_imagepath_template` (source lines 110-123), including the
`with_name(...).with_suffix(file_suffix)` re-parse of line 122.  Takes
`scene.render.filepath` and `scene.render.file_extension`; the Python `or`
keeps the path suffix when nonempty and falls back otherwise. -/
def build_imagepath_template (render_filepath : PPath) (file_extension : String) :
    PathTemplate :=
  let file_suffix := if render_filepath.ext = "" then file_extension
                     else render_filepath.ext
  match hashMatch render_filepath.stem.data with
  | some (g1, n, g3) =>
      ⟨buildTemplateParts (String.mk g1) (String.mk g3) file_suffix n⟩
  | none => ⟨buildTemplateParts render_filepath.stem "" file_suffix 4⟩

/-- Rendering one template part at a frame index and view suffix. -/
def renderPart (p : TPart) (index : Nat) (suffix : String) : String :=
  match p with
  | TPart.lit s => s
  | TPart.indexSlot w => padZeros w index
  | TPart.suffixSlot => suffix

/-- Rendering a template at a frame index and view suffix: the Python
`str(filepath_template).format(index = i, suffix = suffix)` of line 129.
A name whose slots were destroyed by the suffix re-parse renders as the
constant literal, as `format` leaves a brace-free string unchanged. -/
def formatTmpl (t : PathTemplate) (index : Nat) (suffix : String) : String :=
  String.join (t.parts.map (fun p => renderPart p index suffix))

/-- Number of elements of CPython `range(start, stop, step)` for a positive
step (closed form of the CPython length computation). -/
def pyRangeLen (start stop step : Nat) : Nat :=
  if start < stop then (stop - start - 1) / step + 1 else 0

/-- CPython `range(start, stop, step)` as a list; a zero step raises
`ValueError`. -/
def pyRange (start stop step : Nat) : Except PyErr (List Nat) :=
  if step = 0 then Except.error PyErr.valueError
  else Except.ok (List.range' start (pyRangeLen start stop step) step)

/-- The frame-index list of one view together with its formatting, the pure
value `build_image_paths` returns when `range` does not raise. -/
def imagePathsCore (scn : Scene) (t : PathTemplate) (suffix : String) : List String :=
  (List.range' scn.frame_start
      (pyRangeLen scn.frame_start (scn.frame_end + 1) scn.frame_step)
      scn.frame_step).map (fun i => formatTmpl t i suffix)

/-- `build_image_paths` (source lines 126-131): one formatted path per
frame index of `range(frame_start, frame_end + 1, frame_step)`. -/
def build_image_paths (scn : Scene) (t : PathTemplate) (suffix : String) :
    Except PyErr (List String) := do
  let idxs ← pyRange scn.frame_start (scn.frame_end + 1) scn.frame_step
  return idxs.map (fun i => formatTmpl t i suffix)

/-- `build_suffixes` (source lines 133-140). -/
def build_suffixes (scn : Scene) : List String :=
  if scn.render.use_multiview = true ∧ scn.render.views_format = ViewsFormat.MULTIVIEW
  then scn.render.views.map (fun v => v.file_suffix)
  else [""]

/-- The tile grid specification string computed on source lines 147-150. -/
def tileSetting (scn : Scene) : String :=
  if scn.spritesheet.is_rows = Orientation.ROWS
  then toString scn.spritesheet.tiles ++ "x"
  else "x" ++ toString scn.spritesheet.tiles

/-- The `-background` argument built on source lines 190-194: red, green
and blue scaled by 100, alpha passed through. -/
def bgString (c : RGBA) : String :=
  "rgba(" ++ pyFloatStr (c.r * 100) ++ "%, " ++ pyFloatStr (c.g * 100) ++ "%, "
    ++ pyFloatStr (c.b * 100) ++ "%, " ++ pyFloatStr c.a ++ ")"

/-- Effective tile-cell width (source lines 177-181). -/
def effWidth (r : RenderSettings) : ℚ :=
  let width := r.resolution_x * r.resolution_percentage / 100
  if r.use_crop_to_border then r.border_max_x * width - r.border_min_x * width
  else width

/-- Effective tile-cell height (source lines 178-182). -/
def effHeight (r : RenderSettings) : ℚ :=
  let height := r.resolution_y * r.resolution_percentage / 100
  if r.use_crop_to_border then r.border_max_y * height - r.border_min_y * height
  else height

/-- The argument vector of one `montage` invocation (source lines 184-198). -/
structure MontageCall where
  bin : String
  depth : String
  tile : String
  geometry : String
  background : String
  quality : String
  images : List String
  output : String
deriving DecidableEq

/-- One `montage` call as assembled in the loop body, source lines 174-198;
`bpy.path.abspath` is modelled as the identity. -/
def montageCallOf (scn : Scene) (tile_setting bin_path : String) (outP : PPath)
    (current_images : List String) : MontageCall :=
  { bin := bin_path ++ "/montage"
  , depth := "8"
  , tile := tile_setting
  , geometry := pyFloatStr (effWidth scn.render) ++ "x" ++ pyFloatStr (effHeight scn.render)
      ++ "+" ++ toString scn.spritesheet.offset_x ++ "+" ++ toString scn.spritesheet.offset_y
  , background := bgString scn.spritesheet.bg_color
  , quality := toString scn.spritesheet.quality
  , images := current_images
  , output := outP.stem ++ outP.ext }

/-- The `while offset < images_count` loop of source lines 167-202, with
`offset` advancing by `images_count` each pass.  The extra `gas` argument
bounds the pass count: the guard demands `offset < images.length` while
each pass adds `images.length` to `offset`, so starting from offset `0`
with gas `images.length + 1` the gas never runs out before the guard
fails. -/
def sliceLoopGo (scn : Scene) (tile_setting bin_path : String) (outP : PPath)
    (images : List String) : Nat → Nat → List MontageCall
  | 0, _ => []
  | gas + 1, offset =>
      if offset < images.length then
        montageCallOf scn tile_setting bin_path outP
            ((images.drop offset).take images.length)
          :: sliceLoopGo scn tile_setting bin_path outP images gas
              (offset + images.length)
      else []

/-- The `for suffix in suffixes` loop of `spritify` (source lines 161-202),
returning the concatenated trace of `montage` invocations. -/
def spritifyLoop (scn : Scene) (tile_setting bin_path : String)
    (tmpl : PathTemplate) (out_filepath : PPath) :
    List String → Except PyErr (List MontageCall)
  | [] => Except.ok []
  | suffix :: rest => do
      let images ← build_image_paths scn tmpl suffix
      let here := sliceLoopGo scn tile_setting bin_path
          ⟨out_filepath.stem ++ suffix, out_filepath.ext⟩ images (images.length + 1) 0
      let more ← spritifyLoop scn tile_setting bin_path tmpl out_filepath rest
      return here ++ more

/-- `spritify` (source lines 142-202): the trace of `montage` invocations
issued for one render-complete event. -/
def spritify (scn : Scene) : Except PyErr (List MontageCall) :=
  if scn.spritesheet.auto_sprite then
    spritifyLoop scn (tileSetting scn) scn.spritesheet.imagemagick_path
      (build_imagepath_template scn.render.filepath scn.render.file_extension)
      scn.spritesheet.filepath (build_suffixes scn)
  else Except.ok []

/-- The argument vector of one `convert` invocation (source lines 228-234). -/
structure ConvertCall where
  bin : String
  delay : String
  dispose : String
  loop : String
  images : List String
  output : String
deriving DecidableEq

/-- One `convert` call as assembled on source lines 224-234; the output
path is `with_name(stem + suffix).with_suffix('.gif')`, so the `.gif`
extension replaces the name from its last dot (`pyWithSuffixStr`). -/
def gifCallOf (scn : Scene) (convert_path : String) (out_filepath : PPath)
    (suffix : String) (images : List String) : ConvertCall :=
  { bin := convert_path
  , delay := "1x" ++ toString scn.render.fps
  , dispose := "background"
  , loop := "0"
  , images := images
  , output := pyWithSuffixStr (out_filepath.stem ++ suffix) ".gif" }

/-- The `for suffix in suffixes` loop of `gifify` (source lines 224-234). -/
def gififyLoop (scn : Scene) (convert_path : String) (tmpl : PathTemplate)
    (out_filepath : PPath) : List String → Except PyErr (List ConvertCall)
  | [] => Except.ok []
  | suffix :: rest => do
      let images ← build_image_paths scn tmpl suffix
      let more ← gififyLoop scn convert_path tmpl out_filepath rest
      return gifCallOf scn convert_path out_filepath suffix images :: more

/-- `gifify` (source lines 205-234): the trace of `convert` invocations. -/
def gifify (scn : Scene) : Except PyErr (List ConvertCall) :=
  if scn.spritesheet.auto_gif then
    gififyLoop scn (scn.spritesheet.imagemagick_path ++ "/convert")
      (build_imagepath_template scn.render.filepath scn.render.file_extension)
      scn.spritesheet.filepath (build_suffixes scn)
  else Except.ok []

/-- State update `context.scene.spritesheet.auto_sprite = b`. -/
def withAutoSprite (scn : Scene) (b : Bool) : Scene :=
  { scn with spritesheet := { scn.spritesheet with auto_sprite := b } }

/-- State update `context.scene.spritesheet.auto_gif = b`. -/
def withAutoGif (scn : Scene) (b : Bool) : Scene :=
  { scn with spritesheet := { scn.spritesheet with auto_gif := b } }

/-- `SpritifyOperator.execute` (source lines 250-258): scene mutation is
modelled by state passing, and the call trace of the inner `spritify` run
is returned alongside.  When `spritify` raises, the exception propagates
before the flag-restoring `if`, so the scene keeps the toggled flag. -/
def SpritifyOperator_execute (scn : Scene) : Scene × Except PyErr (List MontageCall) :=
  let toggle := scn.spritesheet.auto_sprite = false
  let scn1 := if scn.spritesheet.auto_sprite = false then withAutoSprite scn true else scn
  match spritify scn1 with
  | Except.error e => (scn1, Except.error e)
  | Except.ok calls =>
      (if toggle then withAutoSprite scn1 false else scn1, Except.ok calls)

/-- `GIFifyOperator.execute` (source lines 274-282), modelled like
`SpritifyOperator_execute`. -/
def GIFifyOperator_execute (scn : Scene) : Scene × Except PyErr (List ConvertCall) :=
  let toggle := scn.spritesheet.auto_gif = false
  let scn1 := if scn.spritesheet.auto_gif = false then withAutoGif scn true else scn
  match gifify scn1 with
  | Except.error e => (scn1, Except.error e)
  | Except.ok calls =>
      (if toggle then withAutoGif scn1 false else scn1, Except.ok calls)

end Spritify

namespace Spritify

/-! ### Basic lemmas about the embedded helpers -/

theorem except_ok_bind {ε α β : Type} (a : α) (f : α → Except ε β) :
    (Except.ok a >>= f) = f a := rfl

theorem takeHashRun_eq (h t : List Char) (hh : ∀ c ∈ h, c = '#')
    (ht : t.head? ≠ some '#') : takeHashRun (h ++ t) = (h.length, t) := by
  induction h with
  | nil =>
      cases t with
      | nil => rfl
      | cons c cs =>
          have hc : c ≠ '#' := fun e => ht (by simp [e])
          simp [takeHashRun, hc]
  | cons c h2 ih =>
      have hc : c = '#' := hh c (by simp)
      have ih2 := ih (fun d hd => hh d (by simp [hd]))
      simp [takeHashRun, hc, ih2]

theorem hashMatchGo_none (l : List Char) (hl : '#' ∉ l) :
    ∀ pre, hashMatchGo pre l = none := by
  induction l with
  | nil => intro pre; rfl
  | cons c cs ih =>
      intro pre
      have hc : c ≠ '#' := fun e => hl (by simp [e])
      have hcs : '#' ∉ cs := fun hmem => hl (by simp [hmem])
      simp [hashMatchGo, hc, ih hcs]

theorem hashMatch_none (l : List Char) (hl : '#' ∉ l) : hashMatch l = none := by
  cases l with
  | nil => rfl
  | cons c cs =>
      have hcs : '#' ∉ cs := fun hmem => hl (by simp [hmem])
      simp [hashMatch, hashMatchGo_none cs hcs]

theorem exists_lead_run (l : List Char) (hne : l ≠ []) (hlast : l.getLast? ≠ some '#') :
    ∃ r d z, (∀ c ∈ r, c = '#') ∧ d ≠ '#' ∧ l = r ++ d :: z := by
  induction l with
  | nil => exact absurd rfl hne
  | cons c cs ih =>
      by_cases hc : c = '#'
      · have hcs : cs ≠ [] := by
          intro e
          subst e
          exact hlast (by rw [List.getLast?_singleton, hc])
        have hl2 : cs.getLast? ≠ some '#' := by
          cases cs with
          | nil => exact absurd rfl hcs
          | cons b bs => rw [List.getLast?_cons_cons] at hlast; exact hlast
        obtain ⟨r, d, z, h1, h2, h3⟩ := ih hcs hl2
        refine ⟨c :: r, d, z, ?_, h2, by simp [h3]⟩
        intro x hx
        rcases List.mem_cons.mp hx with hx | hx
        · rw [hx, hc]
        · exact h1 x hx
      · exact ⟨[], c, cs, by simp, hc, rfl⟩

theorem hashMatchGo_append (h t : List Char) (hne : h ≠ []) (hh : ∀ c ∈ h, c = '#')
    (ht : '#' ∉ t) :
    ∀ p2 : List Char, p2.getLast? ≠ some '#' → ∀ pre,
      hashMatchGo pre (p2 ++ (h ++ t)) = some (pre ++ p2, h.length, t) := by
  intro p2
  induction p2 with
  | nil =>
      intro _ pre
      obtain ⟨c, h2, rfl⟩ : ∃ c h2, h = c :: h2 := by
        cases h with
        | nil => exact absurd rfl hne
        | cons c h2 => exact ⟨c, h2, rfl⟩
      have hc : c = '#' := hh c (by simp)
      have hthead : t.head? ≠ some '#' := by
        cases t with
        | nil => simp
        | cons d ds =>
            intro e
            simp only [List.head?_cons, Option.some.injEq] at e
            exact ht (by simp [e])
      have hrun : takeHashRun (h2 ++ t) = (h2.length, t) :=
        takeHashRun_eq h2 t (fun d hd => hh d (by simp [hd])) hthead
      subst hc
      simp [hashMatchGo, hrun, ht]
  | cons c p2' ih =>
      intro hlast pre
      by_cases hc : c = '#'
      · subst hc
        have hp2' : p2' ≠ [] := by
          intro e
          subst e
          exact hlast (by rw [List.getLast?_singleton])
        have hlast' : p2'.getLast? ≠ some '#' := by
          cases p2' with
          | nil => exact absurd rfl hp2'
          | cons b bs => rw [List.getLast?_cons_cons] at hlast; exact hlast
        obtain ⟨r, d, z, hr, hd, hz⟩ := exists_lead_run p2' hp2' hlast'
        have hrun : takeHashRun (p2' ++ (h ++ t)) = (r.length, d :: (z ++ (h ++ t))) := by
          rw [hz]
          have := takeHashRun_eq r (d :: (z ++ (h ++ t))) hr (by simp [hd])
          simpa [List.append_assoc] using this
        have hH : '#' ∈ h := by
          cases h with
          | nil => exact absurd rfl hne
          | cons a as =>
              have := hh a (by simp)
              rw [← this]
              simp
        have hmem : '#' ∈ (takeHashRun (p2' ++ (h ++ t))).2 := by
          rw [hrun]
          simp [hH]
        have step : hashMatchGo pre (('#' :: p2') ++ (h ++ t))
            = hashMatchGo (pre ++ ['#']) (p2' ++ (h ++ t)) := by
          simp [hashMatchGo, hmem]
        rw [step, ih hlast' (pre ++ ['#'])]
        simp
      · have hlast' : p2'.getLast? ≠ some '#' := by
          cases p2' with
          | nil => simp
          | cons b bs => rw [List.getLast?_cons_cons] at hlast; exact hlast
        have step : hashMatchGo pre ((c :: p2') ++ (h ++ t))
            = hashMatchGo (pre ++ [c]) (p2' ++ (h ++ t)) := by
          simp [hashMatchGo, hc]
        rw [step, ih hlast' (pre ++ [c])]
        simp

theorem hashMatch_append (p h t : List Char) (hp : p ≠ [])
    (hlast : p.getLast? ≠ some '#') (hne : h ≠ []) (hh : ∀ c ∈ h, c = '#')
    (ht : '#' ∉ t) : hashMatch (p ++ h ++ t) = some (p, h.length, t) := by
  cases p with
  | nil => exact absurd rfl hp
  | cons c p2 =>
      have hlast' : p2.getLast? ≠ some '#' := by
        cases p2 with
        | nil => simp
        | cons b bs => rw [List.getLast?_cons_cons] at hlast; exact hlast
      have := hashMatchGo_append h t hne hh ht p2 hlast' [c]
      simpa [hashMatch, List.append_assoc] using this

theorem string_data_append (a b : String) : (a ++ b).data = a.data ++ b.data := rfl

theorem string_empty_append (s : String) : "" ++ s = s :=
  String.ext (rfl : ("" ++ s).data = s.data)

theorem digitChar_ne_dot (n : Nat) : Nat.digitChar n ≠ '.' := by
  by_cases h16 : n < 16
  · interval_cases n <;> decide
  · simp only [Nat.digitChar]
    rw [if_neg (show ¬ n = 0 by omega), if_neg (show ¬ n = 1 by omega),
        if_neg (show ¬ n = 2 by omega), if_neg (show ¬ n = 3 by omega),
        if_neg (show ¬ n = 4 by omega), if_neg (show ¬ n = 5 by omega),
        if_neg (show ¬ n = 6 by omega), if_neg (show ¬ n = 7 by omega),
        if_neg (show ¬ n = 8 by omega), if_neg (show ¬ n = 9 by omega),
        if_neg (show ¬ n = 10 by omega), if_neg (show ¬ n = 11 by omega),
        if_neg (show ¬ n = 12 by omega), if_neg (show ¬ n = 13 by omega),
        if_neg (show ¬ n = 14 by omega), if_neg (show ¬ n = 15 by omega)]
    decide

theorem toDigitsCore_ne_dot (b : Nat) :
    ∀ (f n : Nat) (ds : List Char), (∀ c ∈ ds, c ≠ '.') →
      ∀ c ∈ Nat.toDigitsCore b f n ds, c ≠ '.' := by
  intro f
  induction f with
  | zero =>
      intro n ds h c hc
      exact h c hc
  | succ f ih =>
      intro n ds h c hc
      simp only [Nat.toDigitsCore] at hc
      by_cases hz : n / b = 0
      · rw [if_pos hz] at hc
        rcases List.mem_cons.mp hc with hc | hc
        · rw [hc]
          exact digitChar_ne_dot _
        · exact h c hc
      · rw [if_neg hz] at hc
        refine ih (n / b) (Nat.digitChar (n % b) :: ds) ?_ c hc
        intro x hx
        rcases List.mem_cons.mp hx with hx | hx
        · rw [hx]
          exact digitChar_ne_dot _
        · exact h x hx

theorem natRepr_ne_dot (w : Nat) : '.' ∉ (Nat.repr w).data := by
  intro hmem
  have hd : (Nat.repr w).data = Nat.toDigitsCore 10 (w + 1) w [] := rfl
  rw [hd] at hmem
  exact toDigitsCore_ne_dot 10 (w + 1) w [] (by simp) '.' hmem rfl

theorem indexSlotText_ne_dot (w : Nat) : '.' ∉ (indexSlotText w).data := by
  intro hm
  have hd : (indexSlotText w).data
      = "\x7bindex:0".data ++ (toString w).data ++ "d\x7d".data := rfl
  rw [hd] at hm
  rcases List.mem_append.mp hm with hm1 | hm2
  · rcases List.mem_append.mp hm1 with hma | hmb
    · exact absurd hma (by decide)
    · exact natRepr_ne_dot w hmb
  · exact absurd hm2 (by decide)

theorem suffixSlotText_ne_dot : '.' ∉ suffixSlotText.data := by decide

theorem lastIdxOf_eq_none (c : Char) (l : List Char) (h : c ∉ l) :
    lastIdxOf c l = none := by
  induction l with
  | nil => rfl
  | cons a as ih =>
      have h1 : c ∉ as := fun hm => h (by simp [hm])
      have h2 : ¬ (a = c) := fun e => h (by simp [e])
      simp [lastIdxOf, ih h1, h2]

theorem pyWithSuffixStr_no_dot (name suffix : String) (h : '.' ∉ name.data) :
    pyWithSuffixStr name suffix = name ++ suffix := by
  simp [pyWithSuffixStr, pyNameSuffixStart, lastIdxOf_eq_none '.' _ h]

theorem buildTemplateParts_no_dot (lead trail file_suffix : String) (w : Nat)
    (hl : '.' ∉ lead.data) (ht : '.' ∉ trail.data) :
    buildTemplateParts lead trail file_suffix w
      = [TPart.lit lead, TPart.indexSlot w, TPart.suffixSlot,
         TPart.lit (trail ++ file_suffix)] := by
  have hname : '.' ∉ lead.data ++ ((indexSlotText w).data
      ++ (suffixSlotText.data ++ trail.data)) := by
    intro hm
    rcases List.mem_append.mp hm with hm1 | hm2
    · exact hl hm1
    rcases List.mem_append.mp hm2 with hm3 | hm4
    · exact indexSlotText_ne_dot w hm3
    rcases List.mem_append.mp hm4 with hm5 | hm6
    · exact suffixSlotText_ne_dot hm5
    · exact ht hm6
  simp [buildTemplateParts, pyNameSuffixStart, lastIdxOf_eq_none '.' _ hname]

theorem pyRangeLen_succ (s e st : Nat) (h : s ≤ e) :
    pyRangeLen s (e + 1) st = (e - s) / st + 1 := by
  have h1 : s < e + 1 := Nat.lt_succ_of_le h
  have h2 : e + 1 - s - 1 = e - s := by omega
  simp [pyRangeLen, h1, h2]

theorem build_image_paths_ok (scn : Scene) (t : PathTemplate) (sfx : String)
    (h : scn.frame_step ≠ 0) :
    build_image_paths scn t sfx = Except.ok (imagePathsCore scn t sfx) := by
  simp [build_image_paths, pyRange, imagePathsCore, h, except_ok_bind]

theorem imagePathsCore_length (scn : Scene) (t : PathTemplate) (sfx : String)
    (hrange : scn.frame_start ≤ scn.frame_end) :
    (imagePathsCore scn t sfx).length
      = (scn.frame_end - scn.frame_start) / scn.frame_step + 1 := by
  simp [imagePathsCore, pyRangeLen_succ _ _ _ hrange]

theorem imagePathsCore_ne_nil (scn : Scene) (t : PathTemplate) (sfx : String)
    (hrange : scn.frame_start ≤ scn.frame_end) :
    imagePathsCore scn t sfx ≠ [] := by
  intro e
  have h := imagePathsCore_length scn t sfx hrange
  rw [e] at h
  simp at h

theorem sliceLoopGo_once (scn : Scene) (ts bp : String) (outP : PPath)
    (images : List String) (hne : images ≠ []) :
    sliceLoopGo scn ts bp outP images (images.length + 1) 0
      = [montageCallOf scn ts bp outP images] := by
  cases images with
  | nil => exact absurd rfl hne
  | cons a l => simp [sliceLoopGo, List.take_length]

theorem spritifyLoop_eq (scn : Scene) (ts bp : String) (tmpl : PathTemplate)
    (outP : PPath) (hstep : scn.frame_step ≠ 0)
    (hne : ∀ sfx : String, imagePathsCore scn tmpl sfx ≠ []) :
    ∀ sfxs : List String,
      spritifyLoop scn ts bp tmpl outP sfxs
        = Except.ok (sfxs.map (fun sfx => montageCallOf scn ts bp
            ⟨outP.stem ++ sfx, outP.ext⟩ (imagePathsCore scn tmpl sfx))) := by
  intro sfxs
  induction sfxs with
  | nil => rfl
  | cons s rest ih =>
      simp only [spritifyLoop, build_image_paths_ok scn tmpl s hstep, except_ok_bind,
        ih, sliceLoopGo_once scn ts bp _ _ (hne s)]
      rfl

theorem spritifyLoop_isOk (scn : Scene) (ts bp : String) (tmpl : PathTemplate)
    (outP : PPath) (hstep : scn.frame_step ≠ 0) :
    ∀ sfxs : List String, ∃ cs, spritifyLoop scn ts bp tmpl outP sfxs = Except.ok cs := by
  intro sfxs
  induction sfxs with
  | nil => exact ⟨[], rfl⟩
  | cons s rest ih =>
      obtain ⟨cs, hcs⟩ := ih
      refine ⟨sliceLoopGo scn ts bp ⟨outP.stem ++ s, outP.ext⟩
        (imagePathsCore scn tmpl s) ((imagePathsCore scn tmpl s).length + 1) 0 ++ cs, ?_⟩
      simp only [spritifyLoop, build_image_paths_ok scn tmpl s hstep, except_ok_bind, hcs]
      rfl

theorem gififyLoop_eq (scn : Scene) (cpath : String) (tmpl : PathTemplate)
    (outP : PPath) (hstep : scn.frame_step ≠ 0) :
    ∀ sfxs : List String,
      gififyLoop scn cpath tmpl outP sfxs
        = Except.ok (sfxs.map (fun sfx =>
            gifCallOf scn cpath outP sfx (imagePathsCore scn tmpl sfx))) := by
  intro sfxs
  induction sfxs with
  | nil => rfl
  | cons s rest ih =>
      simp only [gififyLoop, build_image_paths_ok scn tmpl s hstep, except_ok_bind, ih]
      rfl

theorem spritify_eq (scn : Scene) (hA : scn.spritesheet.auto_sprite = true)
    (hstep : 1 ≤ scn.frame_step) (hrange : scn.frame_start ≤ scn.frame_end) :
    spritify scn = Except.ok ((build_suffixes scn).map (fun sfx =>
      montageCallOf scn (tileSetting scn) scn.spritesheet.imagemagick_path
        ⟨scn.spritesheet.filepath.stem ++ sfx, scn.spritesheet.filepath.ext⟩
        (imagePathsCore scn
          (build_imagepath_template scn.render.filepath scn.render.file_extension) sfx))) := by
  have hstep' : scn.frame_step ≠ 0 := by omega
  have hne := fun sfx => imagePathsCore_ne_nil scn
    (build_imagepath_template scn.render.filepath scn.render.file_extension) sfx hrange
  simp [spritify, hA, spritifyLoop_eq scn _ _ _ _ hstep' hne]

theorem gifify_eq (scn : Scene) (hA : scn.spritesheet.auto_gif = true)
    (hstep : 1 ≤ scn.frame_step) :
    gifify scn = Except.ok ((build_suffixes scn).map (fun sfx =>
      gifCallOf scn (scn.spritesheet.imagemagick_path ++ "/convert")
        scn.spritesheet.filepath sfx
        (imagePathsCore scn
          (build_imagepath_template scn.render.filepath scn.render.file_extension) sfx))) := by
  have hstep' : scn.frame_step ≠ 0 := by omega
  simp [gifify, hA, gififyLoop_eq scn _ _ _ hstep']

theorem spritify_isOk (scn : Scene) (hstep : scn.frame_step ≠ 0) :
    ∃ cs, spritify scn = Except.ok cs := by
  by_cases hA : scn.spritesheet.auto_sprite = true
  · obtain ⟨cs, h⟩ := spritifyLoop_isOk scn (tileSetting scn)
      scn.spritesheet.imagemagick_path
      (build_imagepath_template scn.render.filepath scn.render.file_extension)
      scn.spritesheet.filepath hstep (build_suffixes scn)
    exact ⟨cs, by simp [spritify, hA, h]⟩
  · exact ⟨[], by simp [spritify, hA]⟩

theorem gifify_isOk (scn : Scene) (hstep : scn.frame_step ≠ 0) :
    ∃ cs, gifify scn = Except.ok cs := by
  by_cases hA : scn.spritesheet.auto_gif = true
  · have h := gififyLoop_eq scn (scn.spritesheet.imagemagick_path ++ "/convert")
      (build_imagepath_template scn.render.filepath scn.render.file_extension)
      scn.spritesheet.filepath hstep (build_suffixes scn)
    exact ⟨(build_suffixes scn).map (fun sfx =>
        gifCallOf scn (scn.spritesheet.imagemagick_path ++ "/convert")
          scn.spritesheet.filepath sfx
          (imagePathsCore scn
            (build_imagepath_template scn.render.filepath scn.render.file_extension) sfx)),
      by simp [gifify, hA, h]⟩
  · exact ⟨[], by simp [gifify, hA]⟩

theorem withAutoSprite_eq_self (scn : Scene) (h : scn.spritesheet.auto_sprite = true) :
    withAutoSprite scn true = scn := by
  cases scn with
  | mk fs fe st r ss =>
      cases ss
      simp_all [withAutoSprite]

theorem withAutoGif_eq_self (scn : Scene) (h : scn.spritesheet.auto_gif = true) :
    withAutoGif scn true = scn := by
  cases scn with
  | mk fs fe st r ss =>
      cases ss
      simp_all [withAutoGif]

end Spritify

namespace Spritify

theorem except_error_bind {ε α β : Type} (e : ε) (f : α → Except ε β) :
    ((Except.error e : Except ε α) >>= f) = Except.error e := rfl

/-- A concrete scene used to instantiate the hypotheses of the proved
theorems: three frames, one view, default sprite-sheet settings. -/
def sampleScene : Scene :=
  { frame_start := 1, frame_end := 3, frame_step := 1
  , render :=
    { filepath := ⟨"frame_####", ".png"⟩, file_extension := ".png"
    , resolution_x := 1920, resolution_y := 1080, resolution_percentage := 50
    , use_crop_to_border := false
    , border_min_x := 0, border_max_x := 1, border_min_y := 0, border_max_y := 1
    , use_multiview := false, views_format := ViewsFormat.STEREO_3D, views := []
    , fps := 24 }
  , spritesheet :=
    { filepath := ⟨"sprites", ".png"⟩, imagemagick_path := "/usr/bin"
    , quality := 100, is_rows := Orientation.ROWS, tiles := 8
    , offset_x := 2, offset_y := 2, bg_color := ⟨0, 0, 0, 0⟩
    , auto_sprite := true, auto_gif := true } }

/-- `sampleScene` with an inverted frame range, a non-positive tile count
and a degenerate crop rectangle: every error condition named by the spec
holds, yet the code raises nothing. -/
def scnInvalid : Scene :=
  { sampleScene with
    frame_start := 5, frame_end := 3
  , render := { sampleScene.render with
      use_crop_to_border := true
    , border_min_x := 1/2, border_max_x := 1/2 }
  , spritesheet := { sampleScene.spritesheet with tiles := 0 } }

/-- `sampleScene` with both auto flags off and a zero frame step, so that
each manual trigger toggles its flag on and the inner generation raises. -/
def scnStuck : Scene :=
  { sampleScene with
    frame_step := 0
  , spritesheet := { sampleScene.spritesheet with
      auto_sprite := false, auto_gif := false } }

/-- C2: for every frame range with `frame_step ≥ 1` and
`frame_end ≥ frame_start`, `build_image_paths` returns exactly
`(frame_end - frame_start) / frame_step + 1` paths, obtained by formatting
the template at the indices `frame_start, frame_start + step, ...` bounded
by `frame_end` inclusive, in strictly ascending frame-index order. -/
theorem frame_sequence_expansion (scn : Scene) (t : PathTemplate) (sfx : String)
    (hstep : 1 ≤ scn.frame_step) (hrange : scn.frame_start ≤ scn.frame_end) :
    build_image_paths scn t sfx
      = Except.ok ((List.range' scn.frame_start
          ((scn.frame_end - scn.frame_start) / scn.frame_step + 1) scn.frame_step).map
            (fun i => formatTmpl t i sfx))
    ∧ (imagePathsCore scn t sfx).length
        = (scn.frame_end - scn.frame_start) / scn.frame_step + 1
    ∧ (List.range' scn.frame_start
        ((scn.frame_end - scn.frame_start) / scn.frame_step + 1)
        scn.frame_step).Pairwise (· < ·)
    ∧ ∀ i ∈ List.range' scn.frame_start
        ((scn.frame_end - scn.frame_start) / scn.frame_step + 1) scn.frame_step,
        scn.frame_start ≤ i ∧ i ≤ scn.frame_end := by
  have hstep' : scn.frame_step ≠ 0 := by omega
  refine ⟨?_, imagePathsCore_length scn t sfx hrange, ?_, ?_⟩
  · rw [build_image_paths_ok scn t sfx hstep']
    unfold imagePathsCore
    rw [pyRangeLen_succ _ _ _ hrange]
  · exact List.pairwise_lt_range' _ _ _ (by omega)
  · intro i hi
    rw [List.mem_range'] at hi
    obtain ⟨k, hk, rfl⟩ := hi
    refine ⟨Nat.le_add_right _ _, ?_⟩
    have hk' : k ≤ (scn.frame_end - scn.frame_start) / scn.frame_step :=
      Nat.lt_succ_iff.mp hk
    have h1 : scn.frame_step * k
        ≤ scn.frame_step * ((scn.frame_end - scn.frame_start) / scn.frame_step) :=
      Nat.mul_le_mul_left _ hk'
    have h2 : scn.frame_step * ((scn.frame_end - scn.frame_start) / scn.frame_step)
        ≤ scn.frame_end - scn.frame_start := by
      rw [Nat.mul_comm]
      exact Nat.div_mul_le_self _ _
    have h3 : scn.frame_step * k ≤ scn.frame_end - scn.frame_start := le_trans h1 h2
    have h4 := Nat.add_le_add_left h3 scn.frame_start
    rwa [Nat.add_sub_cancel' hrange] at h4

/-- C2 witness: the theorem instantiated at the sample scene. -/
theorem frame_sequence_expansion_witness :
    (1 ≤ sampleScene.frame_step ∧ sampleScene.frame_start ≤ sampleScene.frame_end)
    ∧ (build_image_paths sampleScene ⟨[TPart.lit "frame_", TPart.indexSlot 4, TPart.suffixSlot, TPart.lit ".png"]⟩ ""
        = Except.ok ((List.range' sampleScene.frame_start
            ((sampleScene.frame_end - sampleScene.frame_start) / sampleScene.frame_step + 1)
            sampleScene.frame_step).map
              (fun i => formatTmpl ⟨[TPart.lit "frame_", TPart.indexSlot 4, TPart.suffixSlot, TPart.lit ".png"]⟩ i ""))
      ∧ (imagePathsCore sampleScene ⟨[TPart.lit "frame_", TPart.indexSlot 4, TPart.suffixSlot, TPart.lit ".png"]⟩ "").length
          = (sampleScene.frame_end - sampleScene.frame_start) / sampleScene.frame_step + 1
      ∧ (List.range' sampleScene.frame_start
          ((sampleScene.frame_end - sampleScene.frame_start) / sampleScene.frame_step + 1)
          sampleScene.frame_step).Pairwise (· < ·)
      ∧ ∀ i ∈ List.range' sampleScene.frame_start
          ((sampleScene.frame_end - sampleScene.frame_start) / sampleScene.frame_step + 1)
          sampleScene.frame_step,
          sampleScene.frame_start ≤ i ∧ i ≤ sampleScene.frame_end) :=
  ⟨⟨by decide, by decide⟩,
    frame_sequence_expansion sampleScene ⟨[TPart.lit "frame_", TPart.indexSlot 4, TPart.suffixSlot, TPart.lit ".png"]⟩ "" (by decide) (by decide)⟩

/-- C5: the effective tile-cell width is
`resolution_x * resolution_percentage / 100`, further multiplied by
`border_max_x - border_min_x` exactly when crop-to-border is enabled, and
the height is the `y` analogue; each axis is independent. -/
theorem tile_cell_geometry (r : RenderSettings) :
    effWidth r = (if r.use_crop_to_border then r.border_max_x - r.border_min_x else 1)
        * (r.resolution_x * r.resolution_percentage / 100)
    ∧ effHeight r = (if r.use_crop_to_border then r.border_max_y - r.border_min_y else 1)
        * (r.resolution_y * r.resolution_percentage / 100) := by
  constructor
  · unfold effWidth
    by_cases hc : r.use_crop_to_border
    · simp only [hc, if_true]
      ring
    · simp [hc]
  · unfold effHeight
    by_cases hc : r.use_crop_to_border
    · simp only [hc, if_true]
      ring
    · simp [hc]

/-- C4: with a valid frame range, `spritify` issues exactly one `montage`
invocation per view suffix, each receiving the entire frame list of its
view in order; the chunking loop (`images[offset:offset+images_count]`,
`offset` starting at `0` and advancing by the full count) runs its body
exactly once per suffix on any nonempty frame list, so frames of one view
are never split across sprite-sheet files. -/
theorem single_sheet_per_view (scn : Scene)
    (hA : scn.spritesheet.auto_sprite = true) (hstep : 1 ≤ scn.frame_step)
    (hrange : scn.frame_start ≤ scn.frame_end) :
    spritify scn = Except.ok ((build_suffixes scn).map (fun sfx =>
      montageCallOf scn (tileSetting scn) scn.spritesheet.imagemagick_path
        ⟨scn.spritesheet.filepath.stem ++ sfx, scn.spritesheet.filepath.ext⟩
        (imagePathsCore scn
          (build_imagepath_template scn.render.filepath scn.render.file_extension) sfx)))
    ∧ (∀ images : List String, images ≠ [] → ∀ ts bp : String, ∀ outP : PPath,
        sliceLoopGo scn ts bp outP images (images.length + 1) 0
          = [montageCallOf scn ts bp outP images])
    ∧ ∀ sfx : String,
        imagePathsCore scn
          (build_imagepath_template scn.render.filepath scn.render.file_extension) sfx
          ≠ [] :=
  ⟨spritify_eq scn hA hstep hrange,
   fun images hne ts bp outP => sliceLoopGo_once scn ts bp outP images hne,
   fun sfx => imagePathsCore_ne_nil scn _ sfx hrange⟩

/-- C4 witness: the theorem instantiated at the sample scene, where the
single view suffix yields the single montage call on all three frames. -/
theorem single_sheet_per_view_witness :
    (sampleScene.spritesheet.auto_sprite = true ∧ 1 ≤ sampleScene.frame_step
      ∧ sampleScene.frame_start ≤ sampleScene.frame_end)
    ∧ (spritify sampleScene = Except.ok ((build_suffixes sampleScene).map (fun sfx =>
        montageCallOf sampleScene (tileSetting sampleScene)
          sampleScene.spritesheet.imagemagick_path
          ⟨sampleScene.spritesheet.filepath.stem ++ sfx,
            sampleScene.spritesheet.filepath.ext⟩
          (imagePathsCore sampleScene
            (build_imagepath_template sampleScene.render.filepath
              sampleScene.render.file_extension) sfx)))
      ∧ (∀ images : List String, images ≠ [] → ∀ ts bp : String, ∀ outP : PPath,
          sliceLoopGo sampleScene ts bp outP images (images.length + 1) 0
            = [montageCallOf sampleScene ts bp outP images])
      ∧ ∀ sfx : String,
          imagePathsCore sampleScene
            (build_imagepath_template sampleScene.render.filepath
              sampleScene.render.file_extension) sfx ≠ []) :=
  ⟨⟨by decide, by decide, by decide⟩,
    single_sheet_per_view sampleScene (by decide) (by decide) (by decide)⟩

/-- C8 (amended): for every invocation with a positive step, the GIF job
of each view suffix carries delay `"1x" ++ fps`, disposal `background`,
loop count `0` and the ordered frame paths of the view; its output path is
formed by appending the view suffix to the sprite-sheet stem and applying
`with_suffix('.gif')`, which replaces the name from its last dot — for a
dot-free stem-plus-suffix this is exactly stem, suffix and `.gif`
concatenated, while a dotted stem is truncated at its last dot (see the
counterexample). -/
theorem gif_job_parameters (scn : Scene) (hA : scn.spritesheet.auto_gif = true)
    (hstep : 1 ≤ scn.frame_step) :
    gifify scn = Except.ok ((build_suffixes scn).map (fun sfx =>
      ({ bin := scn.spritesheet.imagemagick_path ++ "/convert"
       , delay := "1x" ++ toString scn.render.fps
       , dispose := "background"
       , loop := "0"
       , images := imagePathsCore scn
           (build_imagepath_template scn.render.filepath scn.render.file_extension) sfx
       , output := pyWithSuffixStr (scn.spritesheet.filepath.stem ++ sfx) ".gif" }
        : ConvertCall)))
    ∧ ∀ nm : String, '.' ∉ nm.data → pyWithSuffixStr nm ".gif" = nm ++ ".gif" := by
  constructor
  · simpa [gifCallOf] using gifify_eq scn hA hstep
  · intro nm hnm
    exact pyWithSuffixStr_no_dot nm ".gif" hnm

/-- C8 witness: the amended theorem instantiated at the sample scene. -/
theorem gif_job_parameters_witness :
    (sampleScene.spritesheet.auto_gif = true ∧ 1 ≤ sampleScene.frame_step)
    ∧ (gifify sampleScene = Except.ok ((build_suffixes sampleScene).map (fun sfx =>
        ({ bin := sampleScene.spritesheet.imagemagick_path ++ "/convert"
         , delay := "1x" ++ toString sampleScene.render.fps
         , dispose := "background"
         , loop := "0"
         , images := imagePathsCore sampleScene
             (build_imagepath_template sampleScene.render.filepath
               sampleScene.render.file_extension) sfx
         , output := pyWithSuffixStr (sampleScene.spritesheet.filepath.stem ++ sfx)
             ".gif" } : ConvertCall)))
      ∧ ∀ nm : String, '.' ∉ nm.data → pyWithSuffixStr nm ".gif" = nm ++ ".gif") :=
  ⟨⟨by decide, by decide⟩, gif_job_parameters sampleScene (by decide) (by decide)⟩

/-- `sampleScene` with a dotted sprite-sheet stem, parsed from the
configured path `my.sprites.png`. -/
def scnDotted : Scene :=
  { sampleScene with
    spritesheet := { sampleScene.spritesheet with filepath := ⟨"my.sprites", ".png"⟩ } }

/-- C8 counterexample: for the sprite-sheet path `my.sprites.png`, line
226's `with_suffix('.gif')` replaces the constructed name `my.sprites`
from its last dot, so the program writes `my.gif` — not `my.sprites.gif`
as the claim's output-path clause (suffix after the stem, extension
replaced by `.gif`) asserts. -/
theorem gif_output_counterexample :
    gifify scnDotted = Except.ok
      [{ bin := "/usr/bin/convert", delay := "1x24", dispose := "background"
       , loop := "0"
       , images := ["frame_0001.png", "frame_0002.png", "frame_0003.png"]
       , output := "my.gif" }]
    ∧ ("my.gif" : String) ≠ "my.sprites" ++ "" ++ ".gif" :=
  ⟨by rfl, by decide⟩

end Spritify

namespace Spritify

/-- The single montage invocation `spritify` issues for `sampleScene`. -/
def sampleCall : MontageCall :=
  { bin := "/usr/bin/montage", depth := "8", tile := "8x"
  , geometry := "960.0x540.0+2+2"
  , background := "rgba(0.0%, 0.0%, 0.0%, 0.0)"
  , quality := "100"
  , images := ["frame_0001.png", "frame_0002.png", "frame_0003.png"]
  , output := "sprites.png" }

/-- `sampleScene` with a zero frame step and the auto flags on. -/
def scnStep0 : Scene := { sampleScene with frame_step := 0 }

theorem pyFloatStr_eq (q : ℚ) (m : ℕ) (h : q = (m : ℚ)) :
    pyFloatStr q = toString (m : ℤ) ++ ".0" := by
  subst h
  have h1 : ¬ ((m : ℚ) < 0) := not_lt.mpr (Nat.cast_nonneg m)
  have h2 : |(m : ℚ)| = (m : ℚ) := abs_of_nonneg (Nat.cast_nonneg m)
  simp [pyFloatStr, h1, h2, Rat.den_natCast, Rat.num_natCast]

theorem bgString_sample :
    bgString ⟨1/2, 1/4, 0, 1⟩ = "rgba(50.0%, 25.0%, 0.0%, 1.0)" := by
  show "rgba(" ++ pyFloatStr ((1/2 : ℚ) * 100) ++ "%, " ++ pyFloatStr ((1/4 : ℚ) * 100)
      ++ "%, " ++ pyFloatStr ((0 : ℚ) * 100) ++ "%, " ++ pyFloatStr (1 : ℚ) ++ ")"
    = "rgba(50.0%, 25.0%, 0.0%, 1.0)"
  rw [pyFloatStr_eq ((1/2 : ℚ) * 100) 50 (by norm_num),
      pyFloatStr_eq ((1/4 : ℚ) * 100) 25 (by norm_num),
      pyFloatStr_eq ((0 : ℚ) * 100) 0 (by norm_num),
      pyFloatStr_eq (1 : ℚ) 1 (by norm_num)]
  rfl

theorem sampleScene_spritify : spritify sampleScene = Except.ok [sampleCall] := by
  have hW : pyFloatStr (effWidth sampleScene.render) = "960.0" := by
    rw [pyFloatStr_eq (effWidth sampleScene.render) 960
      (by norm_num [effWidth, sampleScene])]
    rfl
  have hH : pyFloatStr (effHeight sampleScene.render) = "540.0" := by
    rw [pyFloatStr_eq (effHeight sampleScene.render) 540
      (by norm_num [effHeight, sampleScene])]
    rfl
  have hBG : bgString sampleScene.spritesheet.bg_color
      = "rgba(0.0%, 0.0%, 0.0%, 0.0)" := by
    show "rgba(" ++ pyFloatStr ((0 : ℚ) * 100) ++ "%, " ++ pyFloatStr ((0 : ℚ) * 100)
        ++ "%, " ++ pyFloatStr ((0 : ℚ) * 100) ++ "%, " ++ pyFloatStr (0 : ℚ) ++ ")"
      = "rgba(0.0%, 0.0%, 0.0%, 0.0)"
    rw [pyFloatStr_eq ((0 : ℚ) * 100) 0 (by norm_num), pyFloatStr_eq (0 : ℚ) 0 (by norm_num)]
    rfl
  have hcall : montageCallOf sampleScene (tileSetting sampleScene)
      sampleScene.spritesheet.imagemagick_path
      ⟨sampleScene.spritesheet.filepath.stem ++ "", sampleScene.spritesheet.filepath.ext⟩
      (imagePathsCore sampleScene
        (build_imagepath_template sampleScene.render.filepath
          sampleScene.render.file_extension) "") = sampleCall := by
    simp only [montageCallOf]
    rw [hW, hH, hBG]
    rfl
  rw [spritify_eq sampleScene rfl (by decide) (by decide)]
  have hsfx : build_suffixes sampleScene = [""] := rfl
  rw [hsfx]
  simp only [List.map_cons, List.map_nil]
  rw [hcall]

/-- C7: the grid specification handed to the compositor is
`str(tiles) ++ "x"` for orientation `ROWS` and `"x" ++ str(tiles)` for
`COLUMNS`; with `tiles = 8` this gives `"8x"` and `"x8"`. -/
theorem tile_grid_spec (scn : Scene) (cs : List MontageCall)
    (hA : scn.spritesheet.auto_sprite = true) (hstep : 1 ≤ scn.frame_step)
    (hrange : scn.frame_start ≤ scn.frame_end)
    (hok : spritify scn = Except.ok cs) :
    (∀ c ∈ cs, c.tile = (if scn.spritesheet.is_rows = Orientation.ROWS
        then toString scn.spritesheet.tiles ++ "x"
        else "x" ++ toString scn.spritesheet.tiles))
    ∧ tileSetting { scn with spritesheet := { scn.spritesheet with
        is_rows := Orientation.ROWS, tiles := 8 } } = "8x"
    ∧ tileSetting { scn with spritesheet := { scn.spritesheet with
        is_rows := Orientation.COLUMNS, tiles := 8 } } = "x8" := by
  rw [spritify_eq scn hA hstep hrange] at hok
  injection hok with hcs
  subst hcs
  refine ⟨?_, rfl, rfl⟩
  intro c hc
  obtain ⟨sfx, hsfx, rfl⟩ := List.mem_map.mp hc
  rfl

/-- C7 witness: the theorem instantiated at the sample scene. -/
theorem tile_grid_spec_witness :
    (sampleScene.spritesheet.auto_sprite = true ∧ 1 ≤ sampleScene.frame_step
      ∧ sampleScene.frame_start ≤ sampleScene.frame_end
      ∧ spritify sampleScene = Except.ok [sampleCall])
    ∧ ((∀ c ∈ [sampleCall],
          c.tile = (if sampleScene.spritesheet.is_rows = Orientation.ROWS
            then toString sampleScene.spritesheet.tiles ++ "x"
            else "x" ++ toString sampleScene.spritesheet.tiles))
      ∧ tileSetting { sampleScene with spritesheet := { sampleScene.spritesheet with
          is_rows := Orientation.ROWS, tiles := 8 } } = "8x"
      ∧ tileSetting { sampleScene with spritesheet := { sampleScene.spritesheet with
          is_rows := Orientation.COLUMNS, tiles := 8 } } = "x8") :=
  ⟨⟨by decide, by decide, by decide, sampleScene_spritify⟩,
    tile_grid_spec sampleScene [sampleCall] (by decide) (by decide) (by decide)
      sampleScene_spritify⟩

/-- C6: the background specification handed to the compositor is
`rgba(R%, G%, B%, A)` with red, green and blue scaled by 100 and alpha
unscaled; RGBA `(0.5, 0.25, 0.0, 1.0)` yields
`"rgba(50.0%, 25.0%, 0.0%, 1.0)"`. -/
theorem background_color_string (scn : Scene) (cs : List MontageCall)
    (hA : scn.spritesheet.auto_sprite = true) (hstep : 1 ≤ scn.frame_step)
    (hrange : scn.frame_start ≤ scn.frame_end)
    (hok : spritify scn = Except.ok cs) :
    (∀ c ∈ cs, c.background
      = "rgba(" ++ pyFloatStr (scn.spritesheet.bg_color.r * 100) ++ "%, "
          ++ pyFloatStr (scn.spritesheet.bg_color.g * 100) ++ "%, "
          ++ pyFloatStr (scn.spritesheet.bg_color.b * 100) ++ "%, "
          ++ pyFloatStr scn.spritesheet.bg_color.a ++ ")")
    ∧ bgString ⟨1/2, 1/4, 0, 1⟩ = "rgba(50.0%, 25.0%, 0.0%, 1.0)" := by
  rw [spritify_eq scn hA hstep hrange] at hok
  injection hok with hcs
  subst hcs
  refine ⟨?_, bgString_sample⟩
  intro c hc
  obtain ⟨sfx, hsfx, rfl⟩ := List.mem_map.mp hc
  rfl

/-- C6 witness: the theorem instantiated at the sample scene. -/
theorem background_color_string_witness :
    (sampleScene.spritesheet.auto_sprite = true ∧ 1 ≤ sampleScene.frame_step
      ∧ sampleScene.frame_start ≤ sampleScene.frame_end
      ∧ spritify sampleScene = Except.ok [sampleCall])
    ∧ ((∀ c ∈ [sampleCall], c.background
        = "rgba(" ++ pyFloatStr (sampleScene.spritesheet.bg_color.r * 100) ++ "%, "
            ++ pyFloatStr (sampleScene.spritesheet.bg_color.g * 100) ++ "%, "
            ++ pyFloatStr (sampleScene.spritesheet.bg_color.b * 100) ++ "%, "
            ++ pyFloatStr sampleScene.spritesheet.bg_color.a ++ ")")
      ∧ bgString ⟨1/2, 1/4, 0, 1⟩ = "rgba(50.0%, 25.0%, 0.0%, 1.0)") :=
  ⟨⟨by decide, by decide, by decide, sampleScene_spritify⟩,
    background_color_string sampleScene [sampleCall]
      (by decide) (by decide) (by decide) sampleScene_spritify⟩

/-- C3 (amended): the code defines no ConfigurationError and validates
nothing.  With a positive frame step both generators always succeed: an
inverted range yields an empty frame list (no montage call, and a convert
call on an empty list), and non-positive tile counts or dimensions pass
through unchecked.  Only a zero frame step raises, with a Python
`ValueError` from `range` that aborts all views at once. -/
theorem no_configuration_error (scn scn2 : Scene) (hstep : 1 ≤ scn.frame_step)
    (h0 : scn2.frame_step = 0) (hA2 : scn2.spritesheet.auto_sprite = true)
    (hg2 : scn2.spritesheet.auto_gif = true)
    (hMV : scn2.render.use_multiview = false) :
    (∃ cs, spritify scn = Except.ok cs) ∧ (∃ gs, gifify scn = Except.ok gs)
    ∧ spritify scn2 = Except.error PyErr.valueError
    ∧ gifify scn2 = Except.error PyErr.valueError := by
  have hstep' : scn.frame_step ≠ 0 := by omega
  refine ⟨spritify_isOk scn hstep', gifify_isOk scn hstep', ?_, ?_⟩
  · simp [spritify, hA2, build_suffixes, hMV, spritifyLoop, build_image_paths,
      pyRange, h0, except_error_bind]
  · simp [gifify, hg2, build_suffixes, hMV, gififyLoop, build_image_paths,
      pyRange, h0, except_error_bind]

/-- C3 witness: the amended theorem instantiated at the sample scene and at
its zero-step variant. -/
theorem no_configuration_error_witness :
    (1 ≤ sampleScene.frame_step ∧ scnStep0.frame_step = 0
      ∧ scnStep0.spritesheet.auto_sprite = true
      ∧ scnStep0.spritesheet.auto_gif = true
      ∧ scnStep0.render.use_multiview = false)
    ∧ ((∃ cs, spritify sampleScene = Except.ok cs)
      ∧ (∃ gs, gifify sampleScene = Except.ok gs)
      ∧ spritify scnStep0 = Except.error PyErr.valueError
      ∧ gifify scnStep0 = Except.error PyErr.valueError) :=
  ⟨⟨by decide, by decide, by decide, by decide, by decide⟩,
    no_configuration_error sampleScene scnStep0
      (by decide) (by decide) (by decide) (by decide) (by decide)⟩

/-- C3 counterexample: at `scnInvalid` the frame range is inverted, the
tile count is below one, the crop-degenerate computed width is zero, and
the GIF frame list is empty — every error condition the claim names — yet
nothing is raised: `spritify` silently issues no compositor call at all and
`gifify` issues a convert call on an empty frame list. -/
theorem configuration_error_counterexample :
    scnInvalid.frame_end < scnInvalid.frame_start
    ∧ scnInvalid.spritesheet.tiles < 1
    ∧ effWidth scnInvalid.render = 0
    ∧ spritify scnInvalid = Except.ok []
    ∧ gifify scnInvalid = Except.ok
        [{ bin := "/usr/bin/convert", delay := "1x24", dispose := "background"
         , loop := "0", images := [], output := "sprites.gif" }] :=
  ⟨by decide, by decide, by norm_num [effWidth, scnInvalid, sampleScene], by rfl, by rfl⟩

end Spritify

namespace Spritify

/-- C9 (amended): each manual trigger runs the generation even when the
corresponding auto flag is off (its call trace equals that of the scene
with the flag forced on), and when the generation does not raise the flag
is restored to its prior value.  When the generation raises, the toggled
flag is left set (see the counterexample). -/
theorem manual_trigger_flag_semantics (scn : Scene) (hstep : 1 ≤ scn.frame_step) :
    (SpritifyOperator_execute scn).1.spritesheet.auto_sprite
        = scn.spritesheet.auto_sprite
    ∧ (SpritifyOperator_execute scn).2 = spritify (withAutoSprite scn true)
    ∧ (GIFifyOperator_execute scn).1.spritesheet.auto_gif
        = scn.spritesheet.auto_gif
    ∧ (GIFifyOperator_execute scn).2 = gifify (withAutoGif scn true) := by
  have hstep' : scn.frame_step ≠ 0 := by omega
  refine ⟨?_, ?_, ?_, ?_⟩
  · by_cases hA : scn.spritesheet.auto_sprite = true
    · obtain ⟨cs, hcs⟩ := spritify_isOk scn hstep'
      simp [SpritifyOperator_execute, hA, hcs]
    · have hA' : scn.spritesheet.auto_sprite = false := by
        cases hh : scn.spritesheet.auto_sprite
        · rfl
        · exact absurd hh hA
      obtain ⟨cs, hcs⟩ := spritify_isOk (withAutoSprite scn true) hstep'
      simp only [SpritifyOperator_execute, hA', if_true]
      rw [hcs]
      simp [withAutoSprite, hA']
  · by_cases hA : scn.spritesheet.auto_sprite = true
    · rw [withAutoSprite_eq_self scn hA]
      cases hm : spritify scn with
      | error e => simp [SpritifyOperator_execute, hA, hm]
      | ok cs => simp [SpritifyOperator_execute, hA, hm]
    · have hA' : scn.spritesheet.auto_sprite = false := by
        cases hh : scn.spritesheet.auto_sprite
        · rfl
        · exact absurd hh hA
      cases hm : spritify (withAutoSprite scn true) with
      | error e => simp [SpritifyOperator_execute, hA', hm]
      | ok cs => simp [SpritifyOperator_execute, hA', hm]
  · by_cases hA : scn.spritesheet.auto_gif = true
    · obtain ⟨cs, hcs⟩ := gifify_isOk scn hstep'
      simp [GIFifyOperator_execute, hA, hcs]
    · have hA' : scn.spritesheet.auto_gif = false := by
        cases hh : scn.spritesheet.auto_gif
        · rfl
        · exact absurd hh hA
      obtain ⟨cs, hcs⟩ := gifify_isOk (withAutoGif scn true) hstep'
      simp only [GIFifyOperator_execute, hA', if_true]
      rw [hcs]
      simp [withAutoGif, hA']
  · by_cases hA : scn.spritesheet.auto_gif = true
    · rw [withAutoGif_eq_self scn hA]
      cases hm : gifify scn with
      | error e => simp [GIFifyOperator_execute, hA, hm]
      | ok cs => simp [GIFifyOperator_execute, hA, hm]
    · have hA' : scn.spritesheet.auto_gif = false := by
        cases hh : scn.spritesheet.auto_gif
        · rfl
        · exact absurd hh hA
      cases hm : gifify (withAutoGif scn true) with
      | error e => simp [GIFifyOperator_execute, hA', hm]
      | ok cs => simp [GIFifyOperator_execute, hA', hm]

/-- C9 witness: the amended theorem instantiated at the sample scene. -/
theorem manual_trigger_flag_semantics_witness :
    (1 ≤ sampleScene.frame_step)
    ∧ ((SpritifyOperator_execute sampleScene).1.spritesheet.auto_sprite
          = sampleScene.spritesheet.auto_sprite
      ∧ (SpritifyOperator_execute sampleScene).2
          = spritify (withAutoSprite sampleScene true)
      ∧ (GIFifyOperator_execute sampleScene).1.spritesheet.auto_gif
          = sampleScene.spritesheet.auto_gif
      ∧ (GIFifyOperator_execute sampleScene).2
          = gifify (withAutoGif sampleScene true)) :=
  ⟨by decide, manual_trigger_flag_semantics sampleScene (by decide)⟩

/-- C9 counterexample: at `scnStuck` both auto flags are off and the zero
frame step makes the inner generation raise; the source has no
`try/finally`, so the exception propagates past the flag-restoring code and
each manual trigger leaves its flag `true` although it was `false` before
the execution. -/
theorem manual_trigger_counterexample :
    scnStuck.spritesheet.auto_sprite = false
    ∧ (SpritifyOperator_execute scnStuck).2 = Except.error PyErr.valueError
    ∧ (SpritifyOperator_execute scnStuck).1.spritesheet.auto_sprite = true
    ∧ scnStuck.spritesheet.auto_gif = false
    ∧ (GIFifyOperator_execute scnStuck).2 = Except.error PyErr.valueError
    ∧ (GIFifyOperator_execute scnStuck).1.spritesheet.auto_gif = true :=
  ⟨rfl, rfl, rfl, rfl, rfl, rfl⟩

/-- C10: for a stem consisting of `n ≥ 2` hash marks only, the regex keeps
the first `#` as the mandatory nonempty literal prefix and the padding
width is `n - 1`; the one-character stem `"#"` does not match at all and
falls back to the default template (the stem kept literally, width 4). -/
theorem hash_run_edge_case (n : Nat) (ext fb : String) (hn : 2 ≤ n) :
    build_imagepath_template ⟨String.mk (List.replicate n '#'), ext⟩ fb
      = ⟨[TPart.lit "#", TPart.indexSlot (n - 1), TPart.suffixSlot,
          TPart.lit (if ext = "" then fb else ext)]⟩
    ∧ build_imagepath_template ⟨"#", ext⟩ fb
      = ⟨[TPart.lit "#", TPart.indexSlot 4, TPart.suffixSlot,
          TPart.lit (if ext = "" then fb else ext)]⟩ := by
  constructor
  · obtain ⟨k, rfl⟩ : ∃ k, n = k + 2 := ⟨n - 2, by omega⟩
    have h1 : List.replicate (k + 2) '#' = '#' :: '#' :: List.replicate k '#' := by
      simp [List.replicate_succ]
    have hrun : takeHashRun (List.replicate k '#') = (k, []) := by
      have h2 := takeHashRun_eq (List.replicate k '#') []
        (fun c hc => List.eq_of_mem_replicate hc) (by simp)
      simpa using h2
    have h3 : k + 2 - 1 = k + 1 := by omega
    have h4 : buildTemplateParts "#" "" (if ext = "" then fb else ext) (k + 1)
        = [TPart.lit "#", TPart.indexSlot (k + 1), TPart.suffixSlot,
           TPart.lit (if ext = "" then fb else ext)] := by
      rw [buildTemplateParts_no_dot "#" "" (if ext = "" then fb else ext) (k + 1)
        (by decide) (by decide), string_empty_append]
    rw [h3]
    simp [build_imagepath_template, h1, hashMatch, hashMatchGo, hrun, h4]
  · rfl

/-- C10 witness: the theorem instantiated at the four-hash stem. -/
theorem hash_run_edge_case_witness :
    2 ≤ 4
    ∧ (build_imagepath_template ⟨String.mk (List.replicate 4 '#'), ".png"⟩ ".png"
        = ⟨[TPart.lit "#", TPart.indexSlot (4 - 1), TPart.suffixSlot,
            TPart.lit (if ".png" = "" then ".png" else ".png")]⟩
      ∧ build_imagepath_template ⟨"#", ".png"⟩ ".png"
        = ⟨[TPart.lit "#", TPart.indexSlot 4, TPart.suffixSlot,
            TPart.lit (if ".png" = "" then ".png" else ".png")]⟩) :=
  ⟨by decide, hash_run_edge_case 4 ".png" ".png" (by decide)⟩

/-- C1 (amended): for every stem that splits as a nonempty dot-free
literal prefix not ending in `#`, a nonempty run of `#`, and a `#`-free
dot-free tail, the resolved template keeps the prefix and the tail and
pads the index to the length of that run; a `#`-free dot-free stem gets
the default template, the stem followed by an index slot of width 4; the
stem `frame_####` with extension `.png` renders `frame_0007.png` at index
7, and the stem `render` renders `render0007.png`.  A dot in the stem
makes the `with_suffix` re-parse of line 122 truncate the constructed name
at its last dot: stem `render.v1` yields the constant name `render.png`
(index slot destroyed) and stem `frame_##.v2` loses its `.v2` tail.  (The
original claim, quantified over every stem containing a `#` run, fails on
all-hash stems: see the counterexample.) -/
theorem filename_pattern_resolution (p h t : List Char) (ext fb : String)
    (hp : p ≠ []) (hlast : p.getLast? ≠ some '#') (hne : h ≠ [])
    (hh : ∀ c ∈ h, c = '#') (ht : '#' ∉ t)
    (hpd : '.' ∉ p) (htd : '.' ∉ t) :
    build_imagepath_template ⟨String.mk (p ++ h ++ t), ext⟩ fb
      = ⟨[TPart.lit (String.mk p), TPart.indexSlot h.length, TPart.suffixSlot,
          TPart.lit (String.mk t ++ (if ext = "" then fb else ext))]⟩
    ∧ (∀ (stem ext2 fb2 : String), '#' ∉ stem.data → '.' ∉ stem.data →
        build_imagepath_template ⟨stem, ext2⟩ fb2
          = ⟨[TPart.lit stem, TPart.indexSlot 4, TPart.suffixSlot,
              TPart.lit (if ext2 = "" then fb2 else ext2)]⟩)
    ∧ formatTmpl (build_imagepath_template ⟨"frame_####", ".png"⟩ ".png") 7 ""
        = "frame_0007.png"
    ∧ formatTmpl (build_imagepath_template ⟨"render", ".png"⟩ ".png") 7 ""
        = "render0007.png"
    ∧ build_imagepath_template ⟨"render.v1", ".png"⟩ ".png"
        = ⟨[TPart.lit "render.png"]⟩
    ∧ formatTmpl (build_imagepath_template ⟨"render.v1", ".png"⟩ ".png") 7 ""
        = "render.png"
    ∧ build_imagepath_template ⟨"frame_##.v2", ".png"⟩ ".png"
        = ⟨[TPart.lit "frame_", TPart.indexSlot 2, TPart.suffixSlot,
            TPart.lit ".png"]⟩
    ∧ formatTmpl (build_imagepath_template ⟨"frame_##.v2", ".png"⟩ ".png") 7 ""
        = "frame_07.png" := by
  refine ⟨?_, ?_, by rfl, by rfl, by rfl, by rfl, by rfl, by rfl⟩
  · have hm := hashMatch_append p h t hp hlast hne hh ht
    rw [List.append_assoc] at hm
    have h4 := buildTemplateParts_no_dot (String.mk p) (String.mk t)
      (if ext = "" then fb else ext) h.length hpd htd
    simp [build_imagepath_template, hm, h4]
  · intro stem ext2 fb2 hstem hdot
    have h5 : buildTemplateParts stem "" (if ext2 = "" then fb2 else ext2) 4
        = [TPart.lit stem, TPart.indexSlot 4, TPart.suffixSlot,
           TPart.lit (if ext2 = "" then fb2 else ext2)] := by
      rw [buildTemplateParts_no_dot stem "" (if ext2 = "" then fb2 else ext2) 4
        hdot (by decide), string_empty_append]
    simp [build_imagepath_template, hashMatch_none stem.data hstem, h5]

/-- C1 witness: the amended theorem instantiated at the stem
`frame_####`. -/
theorem filename_pattern_resolution_witness :
    ("frame_".data ≠ [] ∧ "frame_".data.getLast? ≠ some '#' ∧ "####".data ≠ []
      ∧ (∀ c ∈ "####".data, c = '#') ∧ '#' ∉ ([] : List Char)
      ∧ '.' ∉ "frame_".data ∧ '.' ∉ ([] : List Char))
    ∧ (build_imagepath_template
          ⟨String.mk ("frame_".data ++ "####".data ++ []), ".png"⟩ ".png"
        = ⟨[TPart.lit (String.mk "frame_".data), TPart.indexSlot "####".data.length,
            TPart.suffixSlot,
            TPart.lit (String.mk [] ++ (if ".png" = "" then ".png" else ".png"))]⟩
      ∧ (∀ (stem ext2 fb2 : String), '#' ∉ stem.data → '.' ∉ stem.data →
          build_imagepath_template ⟨stem, ext2⟩ fb2
            = ⟨[TPart.lit stem, TPart.indexSlot 4, TPart.suffixSlot,
                TPart.lit (if ext2 = "" then fb2 else ext2)]⟩)
      ∧ formatTmpl (build_imagepath_template ⟨"frame_####", ".png"⟩ ".png") 7 ""
          = "frame_0007.png"
      ∧ formatTmpl (build_imagepath_template ⟨"render", ".png"⟩ ".png") 7 ""
          = "render0007.png"
      ∧ build_imagepath_template ⟨"render.v1", ".png"⟩ ".png"
          = ⟨[TPart.lit "render.png"]⟩
      ∧ formatTmpl (build_imagepath_template ⟨"render.v1", ".png"⟩ ".png") 7 ""
          = "render.png"
      ∧ build_imagepath_template ⟨"frame_##.v2", ".png"⟩ ".png"
          = ⟨[TPart.lit "frame_", TPart.indexSlot 2, TPart.suffixSlot,
              TPart.lit ".png"]⟩
      ∧ formatTmpl (build_imagepath_template ⟨"frame_##.v2", ".png"⟩ ".png") 7 ""
          = "frame_07.png") :=
  ⟨⟨by decide, by decide, by decide, by decide, by decide, by decide, by decide⟩,
    filename_pattern_resolution "frame_".data "####".data [] ".png" ".png"
      (by decide) (by decide) (by decide) (by decide) (by decide)
      (by decide) (by decide)⟩

/-- C1 counterexample: the stem `"##"` contains a run of two `#`
characters, so the claim predicts an index slot zero padded to width 2 and
an empty literal prefix; the source regex requires a nonempty prefix, keeps
the first `#` literally, and pads to width 1, rendering `#7.png` at index 7
where the claim predicts `07.png`. -/
theorem filename_pattern_counterexample :
    build_imagepath_template ⟨"##", ".png"⟩ ".png"
      = ⟨[TPart.lit "#", TPart.indexSlot 1, TPart.suffixSlot, TPart.lit ".png"]⟩
    ∧ TPart.indexSlot 2 ∉ (build_imagepath_template ⟨"##", ".png"⟩ ".png").parts
    ∧ formatTmpl (build_imagepath_template ⟨"##", ".png"⟩ ".png") 7 "" = "#7.png" :=
  ⟨rfl, by decide, rfl⟩

end Spritify
